import Mathlib

/-
  Verification of the Mapper component of restful_mapper
  (src/include/restful_mapper/mapper.h).

  The Mapper is embedded shallowly: the emitter is modelled as the list of
  emission events issued so far, the parser as the loaded key/node tree, and
  each C++ member function as a Lean function from mapper state (and cell or
  relation arguments) to updated state.  Exceptions thrown by Json::not_found
  become the error side of Except.  The external collaborators that the spec
  declares opaque (Json document service, Field cells, relation containers)
  are modelled from the spec where noted; everything else is translated from
  mapper.h.
-/

namespace RestfulMapper

/-- The MapperConfig flag constants of mapper.h (IGNORE_MISSING_FIELDS). -/
def IGNORE_MISSING_FIELDS : Nat := 1

/-- MapperConfig: include primary key in output, if it is not null. -/
def INCLUDE_PRIMARY_KEY : Nat := 2

/-- MapperConfig: include non-dirty fields in output. -/
def IGNORE_DIRTY_FLAG : Nat := 4

/-- MapperConfig: touch fields after reading input. -/
def TOUCH_FIELDS : Nat := 8

/-- MapperConfig: do not clean fields after outputting. -/
def KEEP_FIELDS_DIRTY : Nat := 16

/-- MapperConfig: output only a single field (named in field_filter_). -/
def OUTPUT_SINGLE_FIELD : Nat := 32

namespace Json

/-- Modelled from the spec: a node of the parsed JSON tree of the external
Document Service, supporting null checks and typed extraction.  Scalar
payloads are integers or strings; structured payloads reached only through
raw dumps are carried as their serialized text. -/
inductive Node where
  | null
  | num (n : Int)
  | str (s : String)
  | tree (dumped : String)
deriving Repr, DecidableEq

/-- Modelled from the spec: the is_null check of a document node. -/
def Node.is_null : Node → Bool
  | .null => true
  | _ => false

/-- Modelled from the spec: the to_string extraction of a document node. -/
def Node.to_string : Node → String
  | .null => ""
  | .num n => toString n
  | .str s => s
  | .tree d => d

/-- Modelled from the spec: the to_int extraction of a document node. -/
def Node.to_int : Node → Int
  | .null => 0
  | .num n => n
  | .str _ => 0
  | .tree _ => 0

/-- Modelled from the spec: re-serialization (dump) of a document node. -/
def Node.dump : Node → String
  | .null => "null"
  | .num n => toString n
  | .str s => "\"" ++ s ++ "\""
  | .tree d => d

/-- Modelled from the spec: the field-not-found error raised by
Json::not_found, naming the missing key. -/
def not_found (key : String) : String := "Field not found: " ++ key

end Json

/-- Modelled from the spec: the emission events of the external Document
Service emitter.  The accumulated output text is abstracted as the list of
events issued, in order. -/
inductive EmitOp where
  | mapOpen
  | mapClose
  | key (k : String)
  | enull
  | eint (n : Int)
  | estr (s : String)
  | ejson (raw : String)
deriving Repr, DecidableEq, BEq

/-- Modelled from the spec: a typed cell (Field of T, and Primary at
V = Int): an optional scalar masked by a null flag, plus a dirty flag. -/
structure Cell (V : Type) where
  value : V
  null : Bool
  dirty : Bool
deriving Repr, DecidableEq

/-- Modelled from the spec: Field set(value, markDirty). -/
def Cell.set {V : Type} (c : Cell V) (v : V) (markDirty : Bool) : Cell V :=
  { value := v, null := false, dirty := if markDirty then true else c.dirty }

/-- Modelled from the spec: Field clear(markDirty); the stored scalar stays
in place, masked by the null flag. -/
def Cell.clear {V : Type} (c : Cell V) (markDirty : Bool) : Cell V :=
  { c with null := true, dirty := if markDirty then true else c.dirty }

/-- Modelled from the spec: Field touch (force-dirty). -/
def Cell.touch {V : Type} (c : Cell V) : Cell V := { c with dirty := true }

/-- Modelled from the spec: Field clean (clear the dirty flag). -/
def Cell.clean {V : Type} (c : Cell V) : Cell V := { c with dirty := false }

/-- Modelled from the spec: Field is_dirty query. -/
def Cell.is_dirty {V : Type} (c : Cell V) : Bool := c.dirty

/-- Modelled from the spec: Field is_null query. -/
def Cell.is_null {V : Type} (c : Cell V) : Bool := c.null

/-- Modelled from the spec: the relation container contract shared by
HasOne and HasMany: a dirty flag, an opaque serializer to_json carried as a
function-valued field, and hydration from_json recorded as the list of
(fragment, bitmask) arguments received, newest first. -/
structure Relation where
  dirty : Bool
  to_json : Nat → String
  hydrated : List (String × Nat)

/-- Modelled from the spec: relation from_json(fragment, modeBitmask). -/
def Relation.from_json (r : Relation) (fragment : String) (flags : Nat) : Relation :=
  { r with hydrated := (fragment, flags) :: r.hydrated }

/-- Modelled from the spec: relation is_dirty query. -/
def Relation.is_dirty (r : Relation) : Bool := r.dirty

/-- Modelled from the spec: relation clean. -/
def Relation.clean (r : Relation) : Relation := { r with dirty := false }

/-- The Mapper state: the mode bitmask flags_, the field_filter_ string, the
emitter_ (as the list of events issued) and the parser_ (as the loaded
key/node tree; an empty list when never loaded). -/
structure Mapper where
  flags : Nat
  field_filter : String
  emitter : List EmitOp
  parser : List (String × Json.Node)

/-- Emitter event append (one emit call on the Document Service). -/
def Mapper.emit_op (m : Mapper) (op : EmitOp) : Mapper :=
  { m with emitter := m.emitter ++ [op] }

/-- mapper.h should_ignore_missing_fields. -/
def Mapper.should_ignore_missing_fields (m : Mapper) : Bool :=
  m.flags &&& IGNORE_MISSING_FIELDS == IGNORE_MISSING_FIELDS

/-- mapper.h should_include_primary_key. -/
def Mapper.should_include_primary_key (m : Mapper) : Bool :=
  m.flags &&& INCLUDE_PRIMARY_KEY == INCLUDE_PRIMARY_KEY

/-- mapper.h should_ignore_dirty_flag. -/
def Mapper.should_ignore_dirty_flag (m : Mapper) : Bool :=
  m.flags &&& IGNORE_DIRTY_FLAG == IGNORE_DIRTY_FLAG

/-- mapper.h should_touch_fields. -/
def Mapper.should_touch_fields (m : Mapper) : Bool :=
  m.flags &&& TOUCH_FIELDS == TOUCH_FIELDS

/-- mapper.h should_keep_fields_dirty. -/
def Mapper.should_keep_fields_dirty (m : Mapper) : Bool :=
  m.flags &&& KEEP_FIELDS_DIRTY == KEEP_FIELDS_DIRTY

/-- mapper.h should_output_single_field. -/
def Mapper.should_output_single_field (m : Mapper) : Bool :=
  m.flags &&& OUTPUT_SINGLE_FIELD == OUTPUT_SINGLE_FIELD

/-- The empty-output Mapper constructor: store the flags, then open the map
wrapper unless single-field mode. -/
def Mapper.construct (flags : Nat) : Mapper :=
  let m : Mapper := { flags := flags, field_filter := "", emitter := [], parser := [] }
  if m.should_output_single_field then m else m.emit_op .mapOpen

/-- The input-loading Mapper constructor: as Mapper.construct, then load the
input into the parser.  The textual parse itself belongs to the external
Document Service, so the loaded tree is received directly. -/
def Mapper.construct_load (json_struct : List (String × Json.Node)) (flags : Nat) : Mapper :=
  { Mapper.construct flags with parser := json_struct }

/-- mapper.h set_flags. -/
def Mapper.set_flags (m : Mapper) (flags : Nat) : Mapper := { m with flags := flags }

/-- mapper.h set_field_filter. -/
def Mapper.set_field_filter (m : Mapper) (field_filter : String) : Mapper :=
  { m with field_filter := field_filter }

/-- mapper.h dump: close the map wrapper unless single-field mode, then
return the accumulated emitter output. -/
def Mapper.dump (m : Mapper) : List EmitOp :=
  if m.should_output_single_field then m.emitter else (m.emit_op .mapClose).emitter

/-- mapper.h parser_.find, fused with parser_.exists: both are lookups of
the key in the loaded tree. -/
def Mapper.parser_find (m : Mapper) (key : String) : Option Json.Node :=
  m.parser.lookup key

/-- Modelled from the spec: parser_.empty(key) of the external Document
Service: the key is absent or its node is empty/null. -/
def Mapper.parser_empty (m : Mapper) (key : String) : Bool :=
  match m.parser_find key with
  | none => true
  | some .null => true
  | some _ => false

/-- mapper.h raw get: dump the node found at key; Json raises the
field-not-found error when the key is absent (or the parser never loaded). -/
def Mapper.get_raw (m : Mapper) (key : String) : Except String String :=
  match m.parser_find key with
  | some node => .ok node.dump
  | none => .error (Json.not_found key)

/-- mapper.h raw set: skip unless the filter matches in single-field mode;
emit the key unless single-field mode; emit the raw fragment verbatim. -/
def Mapper.set_raw (m : Mapper) (key : String) (json_struct : String) : Mapper :=
  if m.should_output_single_field && m.field_filter != key then m
  else
    let m1 := if m.should_output_single_field then m else m.emit_op (.key key)
    m1.emit_op (.ejson json_struct)

/-- mapper.h generic get(key, Field of T).  The node-to-T conversion of the
external Field cell is received as conv.  The cell is passed by reference in
C++; the updated cell is returned, or the error when Json::not_found fires
(in which case the caller cell is untouched). -/
def Mapper.getField {V : Type} (conv : Json.Node → V) (m : Mapper) (key : String)
    (attr : Cell V) : Except String (Cell V) :=
  match m.parser_find key with
  | some node =>
    let attr1 := if node.is_null then attr.clear true else attr.set (conv node) true
    .ok (if m.should_touch_fields then attr1.touch else attr1)
  | none =>
    if !m.should_ignore_missing_fields then .error (Json.not_found key)
    else .ok (if m.should_touch_fields then attr.touch else attr)

/-- mapper.h generic set(key, Field of T).  The T-specific emitter overload
is received as emitv.  Returns the updated mapper and the cell (cleaned
through its const reference unless keep-fields-dirty). -/
def Mapper.setField {V : Type} (emitv : V → EmitOp) (m : Mapper) (key : String)
    (attr : Cell V) : Mapper × Cell V :=
  if m.should_output_single_field && m.field_filter != key then (m, attr)
  else if !m.should_ignore_dirty_flag && !attr.is_dirty then (m, attr)
  else
    let m1 := if m.should_output_single_field then m else m.emit_op (.key key)
    let m2 := if attr.is_null then m1.emit_op .enull else m1.emit_op (emitv attr.value)
    (m2, if m.should_keep_fields_dirty then attr else attr.clean)

/-- mapper.h get(key, Field of time_t): as the generic get, except the cell
is set from the string form of the node.  The ISO-8601 text-to-time
conversion of the external time cell is received as parse. -/
def Mapper.getTimeField (parse : String → Int) (m : Mapper) (key : String)
    (attr : Cell Int) : Except String (Cell Int) :=
  match m.parser_find key with
  | some node =>
    let attr1 := if node.is_null then attr.clear true
                 else attr.set (parse node.to_string) true
    .ok (if m.should_touch_fields then attr1.touch else attr1)
  | none =>
    if !m.should_ignore_missing_fields then .error (Json.not_found key)
    else .ok (if m.should_touch_fields then attr.touch else attr)

/-- mapper.h set(key, Field of time_t): as the generic set, except a
non-null value is emitted as its ISO-8601 text (attr.to_iso8601(true)); the
time-to-text conversion of the external time cell is received as iso. -/
def Mapper.setTimeField (iso : Int → Bool → String) (m : Mapper) (key : String)
    (attr : Cell Int) : Mapper × Cell Int :=
  if m.should_output_single_field && m.field_filter != key then (m, attr)
  else if !m.should_ignore_dirty_flag && !attr.is_dirty then (m, attr)
  else
    let m1 := if m.should_output_single_field then m else m.emit_op (.key key)
    let m2 := if attr.is_null then m1.emit_op .enull
              else m1.emit_op (.estr (iso attr.value true))
    (m2, if m.should_keep_fields_dirty then attr else attr.clean)

/-- mapper.h get(key, Primary): as the generic get, except the cell is set
from the integer form of the node. -/
def Mapper.getPrimary (m : Mapper) (key : String) (attr : Cell Int) :
    Except String (Cell Int) :=
  match m.parser_find key with
  | some node =>
    let attr1 := if node.is_null then attr.clear true
                 else attr.set node.to_int true
    .ok (if m.should_touch_fields then attr1.touch else attr1)
  | none =>
    if !m.should_ignore_missing_fields then .error (Json.not_found key)
    else .ok (if m.should_touch_fields then attr.touch else attr)

/-- mapper.h set(key, Primary): skip unless the filter matches in
single-field mode; skip unless include-primary-key is set and the cell is
non-null; emit the key unless single-field mode; emit the integer value;
clean unless keep-fields-dirty. -/
def Mapper.setPrimary (m : Mapper) (key : String) (attr : Cell Int) :
    Mapper × Cell Int :=
  if m.should_output_single_field && m.field_filter != key then (m, attr)
  else if !m.should_include_primary_key || attr.is_null then (m, attr)
  else
    let m1 := if m.should_output_single_field then m else m.emit_op (.key key)
    let m2 := m1.emit_op (.eint attr.value)
    (m2, if m.should_keep_fields_dirty then attr else attr.clean)

/-- The C++ expression x & ~OUTPUT_SINGLE_FIELD evaluated on a 32-bit int in
the nonnegative flag range: the mask keeps every bit of the word except
bit 5 (value 32). -/
def and_not_single_field (x : Nat) : Nat := x &&& 4294967263

/-- mapper.h get(key, HasOne of T): no-op when the key is absent or empty;
otherwise hydrate the relation from the raw fragment at key, under the
current flags with INCLUDE_PRIMARY_KEY forced on. -/
def Mapper.getHasOne (m : Mapper) (key : String) (attr : Relation) :
    Except String Relation :=
  if m.parser_empty key then .ok attr
  else (m.get_raw key).map fun fragment =>
    attr.from_json fragment (m.flags ||| INCLUDE_PRIMARY_KEY)

/-- mapper.h set(key, HasOne of T): filter and dirty gating as the generic
set; splice in the relation serialized under the current flags with
INCLUDE_PRIMARY_KEY forced on and OUTPUT_SINGLE_FIELD forced off; clean
unless keep-fields-dirty. -/
def Mapper.setHasOne (m : Mapper) (key : String) (attr : Relation) :
    Mapper × Relation :=
  if m.should_output_single_field && m.field_filter != key then (m, attr)
  else if !m.should_ignore_dirty_flag && !attr.is_dirty then (m, attr)
  else
    let m1 := m.set_raw key
      (attr.to_json (and_not_single_field (m.flags ||| INCLUDE_PRIMARY_KEY)))
    (m1, if m.should_keep_fields_dirty then attr else attr.clean)

/-- mapper.h get(key, HasMany of T): same body as the HasOne get. -/
def Mapper.getHasMany (m : Mapper) (key : String) (attr : Relation) :
    Except String Relation :=
  if m.parser_empty key then .ok attr
  else (m.get_raw key).map fun fragment =>
    attr.from_json fragment (m.flags ||| INCLUDE_PRIMARY_KEY)

/-- mapper.h set(key, HasMany of T): same body as the HasOne set. -/
def Mapper.setHasMany (m : Mapper) (key : String) (attr : Relation) :
    Mapper × Relation :=
  if m.should_output_single_field && m.field_filter != key then (m, attr)
  else if !m.should_ignore_dirty_flag && !attr.is_dirty then (m, attr)
  else
    let m1 := m.set_raw key
      (attr.to_json (and_not_single_field (m.flags ||| INCLUDE_PRIMARY_KEY)))
    (m1, if m.should_keep_fields_dirty then attr else attr.clean)

/-- The final state of a by-reference cell after a get: the updated cell on
success, the original when the not-found exception propagated before any
write to the cell. -/
def finalCell {V : Type} (attr : Cell V) : Except String (Cell V) → Cell V
  | .ok c => c
  | .error _ => attr

/-- One serialization-session operation on a Mapper instance, for reasoning
over whole instance lifetimes.  Value-typed operations are instantiated at
integer cells; the relation operations act on the shared relation model. -/
inductive Action where
  | rawSet (key json_struct : String)
  | fieldSet (key : String) (attr : Cell Int)
  | timeSet (key : String) (attr : Cell Int)
  | primarySet (key : String) (attr : Cell Int)
  | hasOneSet (key : String) (attr : Relation)
  | hasManySet (key : String) (attr : Relation)
  | flagsSet (f : Nat)
  | filterSet (s : String)

/-- Apply one session operation to the mapper state (cells are discarded:
only the mapper evolution matters for instance-level invariants). -/
def Mapper.applyAction (m : Mapper) : Action → Mapper
  | .rawSet k j => m.set_raw k j
  | .fieldSet k c => (m.setField EmitOp.eint k c).fst
  | .timeSet k c => (m.setTimeField (fun t _ => toString t) k c).fst
  | .primarySet k c => (m.setPrimary k c).fst
  | .hasOneSet k r => (m.setHasOne k r).fst
  | .hasManySet k r => (m.setHasMany k r).fst
  | .flagsSet f => m.set_flags f
  | .filterSet s => m.set_field_filter s

/-- Run a whole session of operations in order. -/
def Mapper.runActions (m : Mapper) (acts : List Action) : Mapper :=
  acts.foldl Mapper.applyAction m

/-! Helper lemmas about the flag bitmask gates. -/

lemma and_flag_cases (x i : Nat) : x &&& 2 ^ i = 0 ∨ x &&& 2 ^ i = 2 ^ i := by
  rw [Nat.and_two_pow]
  cases x.testBit i <;> simp

lemma and_one_cases (x : Nat) : x &&& 1 = 0 ∨ x &&& 1 = 1 := by
  simpa using and_flag_cases x 0

lemma and_two_cases (x : Nat) : x &&& 2 = 0 ∨ x &&& 2 = 2 := by
  simpa using and_flag_cases x 1

lemma and_four_cases (x : Nat) : x &&& 4 = 0 ∨ x &&& 4 = 4 := by
  simpa using and_flag_cases x 2

lemma and_eight_cases (x : Nat) : x &&& 8 = 0 ∨ x &&& 8 = 8 := by
  simpa using and_flag_cases x 3

lemma and_sixteen_cases (x : Nat) : x &&& 16 = 0 ∨ x &&& 16 = 16 := by
  simpa using and_flag_cases x 4

lemma and_thirtytwo_cases (x : Nat) : x &&& 32 = 0 ∨ x &&& 32 = 32 := by
  simpa using and_flag_cases x 5

lemma should_imf_false_iff (m : Mapper) :
    m.should_ignore_missing_fields = false ↔ m.flags &&& IGNORE_MISSING_FIELDS = 0 := by
  unfold Mapper.should_ignore_missing_fields IGNORE_MISSING_FIELDS
  rcases and_one_cases m.flags with h | h <;> simp [h]

lemma should_imf_true_iff (m : Mapper) :
    m.should_ignore_missing_fields = true ↔
      m.flags &&& IGNORE_MISSING_FIELDS = IGNORE_MISSING_FIELDS := by
  unfold Mapper.should_ignore_missing_fields IGNORE_MISSING_FIELDS
  rcases and_one_cases m.flags with h | h <;> simp [h]

lemma should_idf_false_iff (m : Mapper) :
    m.should_ignore_dirty_flag = false ↔ m.flags &&& IGNORE_DIRTY_FLAG = 0 := by
  unfold Mapper.should_ignore_dirty_flag IGNORE_DIRTY_FLAG
  rcases and_four_cases m.flags with h | h <;> simp [h]

lemma should_touch_true_iff (m : Mapper) :
    m.should_touch_fields = true ↔ m.flags &&& TOUCH_FIELDS = TOUCH_FIELDS := by
  unfold Mapper.should_touch_fields TOUCH_FIELDS
  rcases and_eight_cases m.flags with h | h <;> simp [h]

/-! Helper lemmas unfolding each typed get on the two lookup outcomes. -/

lemma getField_none {V : Type} (conv : Json.Node → V) (m : Mapper) (key : String)
    (attr : Cell V) (hfind : m.parser_find key = none) :
    m.getField conv key attr =
      (if m.should_ignore_missing_fields then
        .ok (if m.should_touch_fields then attr.touch else attr)
      else .error (Json.not_found key)) := by
  unfold Mapper.getField
  rw [hfind]
  cases him : m.should_ignore_missing_fields <;> simp [him]

lemma getField_some {V : Type} (conv : Json.Node → V) (m : Mapper) (key : String)
    (attr : Cell V) (node : Json.Node) (hfind : m.parser_find key = some node) :
    m.getField conv key attr =
      .ok (if m.should_touch_fields then
            (if node.is_null then attr.clear true else attr.set (conv node) true).touch
          else (if node.is_null then attr.clear true else attr.set (conv node) true)) := by
  unfold Mapper.getField
  rw [hfind]

lemma getTimeField_none (parse : String → Int) (m : Mapper) (key : String)
    (attr : Cell Int) (hfind : m.parser_find key = none) :
    m.getTimeField parse key attr =
      (if m.should_ignore_missing_fields then
        .ok (if m.should_touch_fields then attr.touch else attr)
      else .error (Json.not_found key)) := by
  unfold Mapper.getTimeField
  rw [hfind]
  cases him : m.should_ignore_missing_fields <;> simp [him]

lemma getTimeField_some (parse : String → Int) (m : Mapper) (key : String)
    (attr : Cell Int) (node : Json.Node) (hfind : m.parser_find key = some node) :
    m.getTimeField parse key attr =
      .ok (if m.should_touch_fields then
            (if node.is_null then attr.clear true
             else attr.set (parse node.to_string) true).touch
          else (if node.is_null then attr.clear true
             else attr.set (parse node.to_string) true)) := by
  unfold Mapper.getTimeField
  rw [hfind]

lemma getPrimary_none (m : Mapper) (key : String)
    (attr : Cell Int) (hfind : m.parser_find key = none) :
    m.getPrimary key attr =
      (if m.should_ignore_missing_fields then
        .ok (if m.should_touch_fields then attr.touch else attr)
      else .error (Json.not_found key)) := by
  unfold Mapper.getPrimary
  rw [hfind]
  cases him : m.should_ignore_missing_fields <;> simp [him]

lemma getPrimary_some (m : Mapper) (key : String)
    (attr : Cell Int) (node : Json.Node) (hfind : m.parser_find key = some node) :
    m.getPrimary key attr =
      .ok (if m.should_touch_fields then
            (if node.is_null then attr.clear true else attr.set node.to_int true).touch
          else (if node.is_null then attr.clear true else attr.set node.to_int true)) := by
  unfold Mapper.getPrimary
  rw [hfind]

/-- C1: for every field key and every mode bitmask without ignore-dirty-flag,
the typed generic set and the timestamp set on a non-dirty cell are complete
no-ops: the mapper (hence the emitted document) and the cell are returned
unchanged, so no key and no value appear for that field. -/
theorem C1_nondirty_set_is_noop {V : Type} (emitv : V → EmitOp) (iso : Int → Bool → String)
    (m : Mapper) (key : String) (attr : Cell V) (attrT : Cell Int)
    (hmode : m.flags &&& IGNORE_DIRTY_FLAG = 0)
    (hd : attr.dirty = false) (hdT : attrT.dirty = false) :
    m.setField emitv key attr = (m, attr) ∧ m.setTimeField iso key attrT = (m, attrT) := by
  have hidf : m.should_ignore_dirty_flag = false := (should_idf_false_iff m).mpr hmode
  constructor
  · simp [Mapper.setField, hidf, Cell.is_dirty, hd]
  · simp [Mapper.setTimeField, hidf, Cell.is_dirty, hdT]

/-- Witness for C1 at a concrete mapper, key and cell. -/
theorem C1_witness :
    (Mapper.construct 0).flags &&& IGNORE_DIRTY_FLAG = 0 ∧
    (Mapper.construct 0).setField EmitOp.eint "name"
        ({ value := 5, null := false, dirty := false } : Cell Int) =
      (Mapper.construct 0, { value := 5, null := false, dirty := false }) :=
  ⟨by decide,
    (C1_nondirty_set_is_noop EmitOp.eint (fun t _ => toString t)
      (Mapper.construct 0) "name" { value := 5, null := false, dirty := false }
      { value := 0, null := false, dirty := false } (by decide) rfl rfl).1⟩

/-- C2: a typed scalar, timestamp, or primary-key get results in the
field-not-found error exactly when the key is absent from the loaded
document and ignore-missing-fields is not set; when ignore-missing-fields is
set and the key is absent, the get succeeds and the cell is unchanged except
for the touch-fields touch. -/
theorem C2_missing_field_error {V : Type} (conv : Json.Node → V) (parse : String → Int)
    (m : Mapper) (key : String) (attr : Cell V) (attrT attrP : Cell Int) :
    (m.getField conv key attr = .error (Json.not_found key) ↔
      m.parser_find key = none ∧ m.flags &&& IGNORE_MISSING_FIELDS = 0) ∧
    (m.getTimeField parse key attrT = .error (Json.not_found key) ↔
      m.parser_find key = none ∧ m.flags &&& IGNORE_MISSING_FIELDS = 0) ∧
    (m.getPrimary key attrP = .error (Json.not_found key) ↔
      m.parser_find key = none ∧ m.flags &&& IGNORE_MISSING_FIELDS = 0) ∧
    (m.parser_find key = none →
      m.flags &&& IGNORE_MISSING_FIELDS = IGNORE_MISSING_FIELDS →
      m.getField conv key attr = .ok (if m.should_touch_fields then attr.touch else attr) ∧
      m.getTimeField parse key attrT =
        .ok (if m.should_touch_fields then attrT.touch else attrT) ∧
      m.getPrimary key attrP = .ok (if m.should_touch_fields then attrP.touch else attrP)) := by
  rcases hfind : m.parser_find key with _ | node
  · by_cases him : m.should_ignore_missing_fields = true
    · have h1 := (should_imf_true_iff m).mp him
      have h1' : m.flags % 2 = 1 := by
        simpa [IGNORE_MISSING_FIELDS, Nat.and_one_is_mod] using h1
      refine ⟨?_, ?_, ?_, fun _ _ => ⟨?_, ?_, ?_⟩⟩ <;>
        simp [getField_none conv m key attr hfind, getTimeField_none parse m key attrT hfind,
          getPrimary_none m key attrP hfind, him, h1, h1', IGNORE_MISSING_FIELDS]
    · have him' : m.should_ignore_missing_fields = false := by
        cases h : m.should_ignore_missing_fields
        · rfl
        · exact absurd h him
      have h0 := (should_imf_false_iff m).mp him'
      refine ⟨?_, ?_, ?_, fun _ hcontra => ?_⟩
      · simp [getField_none conv m key attr hfind, him', h0]
      · simp [getTimeField_none parse m key attrT hfind, him', h0]
      · simp [getPrimary_none m key attrP hfind, him', h0]
      · rw [h0] at hcontra
        simp [IGNORE_MISSING_FIELDS] at hcontra
  · refine ⟨?_, ?_, ?_, fun habs _ => ?_⟩
    · simp [getField_some conv m key attr node hfind, hfind]
    · simp [getTimeField_some parse m key attrT node hfind, hfind]
    · simp [getPrimary_some m key attrP node hfind, hfind]
    · exact absurd habs (by simp)

/-- Witness for C2 at a concrete document, key and cells: the key b is
absent, ignore-missing-fields is set, and the gets succeed untouched. -/
theorem C2_witness :
    ((Mapper.construct_load [("a", Json.Node.num 1)] IGNORE_MISSING_FIELDS).parser_find "b"
        = none) ∧
    (Mapper.construct_load [("a", Json.Node.num 1)]
        IGNORE_MISSING_FIELDS).flags &&& IGNORE_MISSING_FIELDS = IGNORE_MISSING_FIELDS ∧
    (Mapper.construct_load [("a", Json.Node.num 1)] IGNORE_MISSING_FIELDS).getPrimary "b"
        { value := 0, null := false, dirty := false } =
      .ok { value := 0, null := false, dirty := false } := by
  refine ⟨by decide, by decide, ?_⟩
  have h := (C2_missing_field_error (fun n => n.to_int) (fun s => (s.length : Int))
    (Mapper.construct_load [("a", Json.Node.num 1)] IGNORE_MISSING_FIELDS) "b"
    { value := (0 : Int), null := false, dirty := false }
    { value := 0, null := false, dirty := false }
    { value := 0, null := false, dirty := false }).2.2.2 (by decide) (by decide)
  rw [h.2.2]
  rfl

/-- Counterexample to C6 as stated: with INCLUDE_PRIMARY_KEY and
KEEP_FIELDS_DIRTY both set, the primary-key set writes the cell (the key and
the integer value are emitted) yet the dirty flag is NOT cleared. -/
theorem C6_counterexample :
    ((Mapper.construct (INCLUDE_PRIMARY_KEY ||| KEEP_FIELDS_DIRTY)).setPrimary "id"
        { value := 42, null := false, dirty := true }).fst.emitter
      = [EmitOp.mapOpen, EmitOp.key "id", EmitOp.eint 42] ∧
    ((Mapper.construct (INCLUDE_PRIMARY_KEY ||| KEEP_FIELDS_DIRTY)).setPrimary "id"
        { value := 42, null := false, dirty := true }).snd.dirty = true := by
  decide

/-- C6 amended: when the primary-key set actually writes the cell, the dirty
flag is cleared exactly when keep-fields-dirty is not set, the same rule as
the other field kinds. -/
theorem C6_primary_clean_respects_keep (m : Mapper) (key : String) (attr : Cell Int)
    (hf : (m.should_output_single_field && m.field_filter != key) = false)
    (hw : (!m.should_include_primary_key || attr.is_null) = false) :
    (m.setPrimary key attr).snd =
      (if m.should_keep_fields_dirty then attr else attr.clean) := by
  simp only [Mapper.setPrimary, hf, hw, Bool.false_eq_true, if_false]

/-- Witness for C6 amended at a concrete mapper and cell. -/
theorem C6_witness :
    ((Mapper.construct INCLUDE_PRIMARY_KEY).should_output_single_field &&
      (Mapper.construct INCLUDE_PRIMARY_KEY).field_filter != "id") = false ∧
    (!(Mapper.construct INCLUDE_PRIMARY_KEY).should_include_primary_key ||
      ({ value := 42, null := false, dirty := true } : Cell Int).is_null) = false ∧
    ((Mapper.construct INCLUDE_PRIMARY_KEY).setPrimary "id"
        { value := 42, null := false, dirty := true }).snd =
      ({ value := 42, null := false, dirty := true } : Cell Int).clean :=
  ⟨by decide, by decide, by
    have h := C6_primary_clean_respects_keep (Mapper.construct INCLUDE_PRIMARY_KEY) "id"
      { value := 42, null := false, dirty := true } (by decide) (by decide)
    rw [h]
    rfl⟩

/-- Counterexample to C7 as stated: with TOUCH_FIELDS set (and
ignore-missing-fields not set), a primary-key get on an absent key raises
the not-found error and the cell is left with its dirty flag still false,
so the dirty flag is NOT forced in the absent-without-ignore branch. -/
theorem C7_counterexample :
    (Mapper.construct_load [("a", Json.Node.num 1)] TOUCH_FIELDS).getPrimary "b"
        { value := 0, null := false, dirty := false } =
      .error (Json.not_found "b") ∧
    (finalCell ({ value := 0, null := false, dirty := false } : Cell Int)
      ((Mapper.construct_load [("a", Json.Node.num 1)] TOUCH_FIELDS).getPrimary "b"
        { value := 0, null := false, dirty := false })).dirty = false :=
  ⟨rfl, rfl⟩

/-- C7 amended: with touch-fields set, every typed scalar, timestamp, or
primary-key get that completes without error returns the cell with its
dirty flag forced true (key present with value, key present null, and key
absent with ignore-missing-fields set); in the not-found branch the error
propagates before the touch. -/
theorem C7_touch_on_normal_return {V : Type} (conv : Json.Node → V) (parse : String → Int)
    (m : Mapper) (key : String) (attr : Cell V) (attrT attrP : Cell Int)
    (htouch : m.flags &&& TOUCH_FIELDS = TOUCH_FIELDS) :
    (∀ c, m.getField conv key attr = .ok c → c.dirty = true) ∧
    (∀ c, m.getTimeField parse key attrT = .ok c → c.dirty = true) ∧
    (∀ c, m.getPrimary key attrP = .ok c → c.dirty = true) := by
  have ht : m.should_touch_fields = true := (should_touch_true_iff m).mpr htouch
  refine ⟨fun c hc => ?_, fun c hc => ?_, fun c hc => ?_⟩
  · rcases hfind : m.parser_find key with _ | node
    · rw [getField_none conv m key attr hfind] at hc
      cases him : m.should_ignore_missing_fields <;> rw [him] at hc <;> simp [ht] at hc
      simp [← hc, Cell.touch]
    · rw [getField_some conv m key attr node hfind] at hc
      simp [ht] at hc
      simp [← hc, Cell.touch]
  · rcases hfind : m.parser_find key with _ | node
    · rw [getTimeField_none parse m key attrT hfind] at hc
      cases him : m.should_ignore_missing_fields <;> rw [him] at hc <;> simp [ht] at hc
      simp [← hc, Cell.touch]
    · rw [getTimeField_some parse m key attrT node hfind] at hc
      simp [ht] at hc
      simp [← hc, Cell.touch]
  · rcases hfind : m.parser_find key with _ | node
    · rw [getPrimary_none m key attrP hfind] at hc
      cases him : m.should_ignore_missing_fields <;> rw [him] at hc <;> simp [ht] at hc
      simp [← hc, Cell.touch]
    · rw [getPrimary_some m key attrP node hfind] at hc
      simp [ht] at hc
      simp [← hc, Cell.touch]

/-- Witness for C7 amended at a concrete document and cell. -/
theorem C7_witness :
    (Mapper.construct_load [("a", Json.Node.num 1)] TOUCH_FIELDS).flags &&& TOUCH_FIELDS
        = TOUCH_FIELDS ∧
    ∀ c, (Mapper.construct_load [("a", Json.Node.num 1)] TOUCH_FIELDS).getPrimary "a"
        { value := 0, null := false, dirty := false } = .ok c → c.dirty = true :=
  ⟨by decide,
    (C7_touch_on_normal_return (fun n => n.to_int) (fun s => (s.length : Int))
      (Mapper.construct_load [("a", Json.Node.num 1)] TOUCH_FIELDS) "a"
      ({ value := (0 : Int), null := false, dirty := false } : Cell Int)
      { value := 0, null := false, dirty := false }
      { value := 0, null := false, dirty := false } (by decide)).2.2⟩

/-- C4: the primary-key set emits the key and the integer value exactly when
include-primary-key is set and the cell is non-null; in single-field mode a
non-matching key is a complete no-op and a matching key emits the bare
value; the dirty flag of the cell has no influence on what is emitted. -/
theorem C4_primary_emission (m : Mapper) (key : String) (attr : Cell Int) (d : Bool) :
    (m.should_output_single_field = false →
      (m.setPrimary key attr).fst.emitter = m.emitter ++
        (if m.should_include_primary_key && !attr.null then
          [EmitOp.key key, EmitOp.eint attr.value]
        else [])) ∧
    (m.should_output_single_field = true → m.field_filter ≠ key →
      m.setPrimary key attr = (m, attr)) ∧
    (m.should_output_single_field = true →
      (m.setPrimary m.field_filter attr).fst.emitter = m.emitter ++
        (if m.should_include_primary_key && !attr.null then [EmitOp.eint attr.value]
        else [])) ∧
    (m.setPrimary key { attr with dirty := d }).fst = (m.setPrimary key attr).fst := by
  refine ⟨fun hosf => ?_, fun hosf hne => ?_, fun hosf => ?_, ?_⟩
  · cases hipk : m.should_include_primary_key <;> cases hnull : attr.null <;>
      simp [Mapper.setPrimary, Mapper.emit_op, Cell.is_null, hosf, hipk, hnull]
  · have hcond : (m.should_output_single_field && m.field_filter != key) = true := by
      simp [hosf, bne_iff_ne, hne]
    simp [Mapper.setPrimary, hcond]
  · cases hipk : m.should_include_primary_key <;> cases hnull : attr.null <;>
      simp [Mapper.setPrimary, Mapper.emit_op, Cell.is_null, hosf, hipk, hnull]
  · have hn : ({ attr with dirty := d } : Cell Int).is_null = attr.is_null := rfl
    simp only [Mapper.setPrimary, hn]
    cases hc1 : (m.should_output_single_field && m.field_filter != key) <;>
      cases hc2 : (!m.should_include_primary_key || attr.is_null) <;> simp

/-- Witness for C4 at a concrete mapper and cell. -/
theorem C4_witness :
    (Mapper.construct INCLUDE_PRIMARY_KEY).should_output_single_field = false ∧
    ((Mapper.construct INCLUDE_PRIMARY_KEY).setPrimary "id"
        ({ value := 42, null := false, dirty := false } : Cell Int)).fst.emitter =
      (Mapper.construct INCLUDE_PRIMARY_KEY).emitter ++ [EmitOp.key "id", EmitOp.eint 42] :=
  ⟨by decide, by
    have h := (C4_primary_emission (Mapper.construct INCLUDE_PRIMARY_KEY) "id"
      { value := 42, null := false, dirty := false } true).1 (by decide)
    rw [h]
    rfl⟩

/-- C8: a typed get on a document binding the key to JSON null clears the
cell and marks it dirty, and the subsequent typed set of that cell under a
bitmask with ignore-dirty-flag set (and single-field mode off) emits the key
bound to JSON null: null values round-trip. -/
theorem C8_null_roundtrip {V : Type} (conv : Json.Node → V) (emitv : V → EmitOp)
    (m : Mapper) (key : String) (attr : Cell V)
    (hnull : m.parser_find key = some Json.Node.null)
    (m2 : Mapper) (hidf : m2.flags &&& IGNORE_DIRTY_FLAG = IGNORE_DIRTY_FLAG)
    (hosf : m2.flags &&& OUTPUT_SINGLE_FIELD = 0) :
    ∃ c, m.getField conv key attr = .ok c ∧ c.null = true ∧ c.dirty = true ∧
      (m2.setField emitv key c).fst.emitter = m2.emitter ++ [EmitOp.key key, EmitOp.enull] := by
  have hidf' : m2.should_ignore_dirty_flag = true := by
    simp [Mapper.should_ignore_dirty_flag, hidf]
  have hosf' : m2.should_output_single_field = false := by
    have h := hosf
    simp only [OUTPUT_SINGLE_FIELD] at h
    simp [Mapper.should_output_single_field, OUTPUT_SINGLE_FIELD, h]
  refine ⟨if m.should_touch_fields then (attr.clear true).touch else attr.clear true,
    ?_, ?_, ?_, ?_⟩
  · rw [getField_some conv m key attr _ hnull]
    simp [Json.Node.is_null]
  · cases ht : m.should_touch_fields <;> simp [ht, Cell.clear, Cell.touch]
  · cases ht : m.should_touch_fields <;> simp [ht, Cell.clear, Cell.touch]
  · cases ht : m.should_touch_fields <;>
      simp [ht, Mapper.setField, hidf', hosf', Mapper.emit_op, Cell.is_null,
        Cell.clear, Cell.touch]

/-- Witness for C8 at a concrete document, key and cell. -/
theorem C8_witness :
    (Mapper.construct_load [("f", Json.Node.null)] 0).parser_find "f"
        = some Json.Node.null ∧
    (Mapper.construct IGNORE_DIRTY_FLAG).flags &&& IGNORE_DIRTY_FLAG = IGNORE_DIRTY_FLAG ∧
    (Mapper.construct IGNORE_DIRTY_FLAG).flags &&& OUTPUT_SINGLE_FIELD = 0 ∧
    ∃ c : Cell Int,
      (Mapper.construct_load [("f", Json.Node.null)] 0).getField (fun n => n.to_int) "f"
          { value := 7, null := false, dirty := false } = .ok c ∧
      c.null = true ∧ c.dirty = true ∧
      ((Mapper.construct IGNORE_DIRTY_FLAG).setField EmitOp.eint "f" c).fst.emitter =
        (Mapper.construct IGNORE_DIRTY_FLAG).emitter ++ [EmitOp.key "f", EmitOp.enull] :=
  ⟨rfl, by decide, by decide,
    C8_null_roundtrip (fun n => n.to_int) EmitOp.eint
      (Mapper.construct_load [("f", Json.Node.null)] 0) "f"
      { value := 7, null := false, dirty := false } rfl
      (Mapper.construct IGNORE_DIRTY_FLAG) (by decide) (by decide)⟩

/-- C10: the typed scalar, timestamp, and primary-key gets read the mode
bitmask only through the ignore-missing-fields and touch-fields bits: two
mappers with the same loaded document whose bitmasks agree on those two bits
(and may differ on all serialize-only bits) produce identical
error-or-success results and identical final cells. -/
theorem C10_get_reads_only_deserialize_flags {V : Type} (conv : Json.Node → V)
    (parse : String → Int) (m1 m2 : Mapper) (key : String)
    (attr : Cell V) (attrT attrP : Cell Int)
    (hp : m1.parser = m2.parser)
    (h1 : m1.flags &&& IGNORE_MISSING_FIELDS = m2.flags &&& IGNORE_MISSING_FIELDS)
    (h8 : m1.flags &&& TOUCH_FIELDS = m2.flags &&& TOUCH_FIELDS) :
    m1.getField conv key attr = m2.getField conv key attr ∧
    m1.getTimeField parse key attrT = m2.getTimeField parse key attrT ∧
    m1.getPrimary key attrP = m2.getPrimary key attrP := by
  have hfind : m1.parser_find key = m2.parser_find key := by
    unfold Mapper.parser_find
    rw [hp]
  have himf : m1.should_ignore_missing_fields = m2.should_ignore_missing_fields := by
    simp only [Mapper.should_ignore_missing_fields, h1]
  have ht : m1.should_touch_fields = m2.should_touch_fields := by
    simp only [Mapper.should_touch_fields, h8]
  refine ⟨?_, ?_, ?_⟩
  · rcases hfind2 : m2.parser_find key with _ | node
    · rw [getField_none conv m1 key attr (hfind.trans hfind2),
        getField_none conv m2 key attr hfind2, himf, ht]
    · rw [getField_some conv m1 key attr node (hfind.trans hfind2),
        getField_some conv m2 key attr node hfind2, ht]
  · rcases hfind2 : m2.parser_find key with _ | node
    · rw [getTimeField_none parse m1 key attrT (hfind.trans hfind2),
        getTimeField_none parse m2 key attrT hfind2, himf, ht]
    · rw [getTimeField_some parse m1 key attrT node (hfind.trans hfind2),
        getTimeField_some parse m2 key attrT node hfind2, ht]
  · rcases hfind2 : m2.parser_find key with _ | node
    · rw [getPrimary_none m1 key attrP (hfind.trans hfind2),
        getPrimary_none m2 key attrP hfind2, himf, ht]
    · rw [getPrimary_some m1 key attrP node (hfind.trans hfind2),
        getPrimary_some m2 key attrP node hfind2, ht]

/-- Witness for C10: bitmasks 0 and 54 (all serialize-only bits differ, the
two deserialize bits agree) give identical primary-key get results. -/
theorem C10_witness :
    (Mapper.construct_load [("a", Json.Node.num 1)] 0).getPrimary "a"
        { value := 0, null := false, dirty := false } =
      (Mapper.construct_load [("a", Json.Node.num 1)] 54).getPrimary "a"
        { value := 0, null := false, dirty := false } :=
  (C10_get_reads_only_deserialize_flags (fun n => n.to_int) (fun s => (s.length : Int))
    (Mapper.construct_load [("a", Json.Node.num 1)] 0)
    (Mapper.construct_load [("a", Json.Node.num 1)] 54) "a"
    ({ value := (0 : Int), null := false, dirty := false } : Cell Int)
    { value := 0, null := false, dirty := false }
    { value := 0, null := false, dirty := false }
    rfl (by decide) (by decide)).2.2

/-- C3: in single-field mode, every set whose key differs from the filter is
a complete no-op, a matching set emits only the bare value with no key
event, the constructor emits no map-open and dump appends no map-close, so
the accumulated output is the bare value alone. -/
theorem C3_single_field_projection {V : Type} (emitv : V → EmitOp) (iso : Int → Bool → String)
    (flags0 : Nat) (hf : flags0 &&& OUTPUT_SINGLE_FIELD = OUTPUT_SINGLE_FIELD)
    (m : Mapper) (hosf : m.should_output_single_field = true)
    (key j : String) (attr : Cell V) (attrT attrP : Cell Int) (rel : Relation) :
    (Mapper.construct flags0).emitter = [] ∧
    m.dump = m.emitter ∧
    (m.field_filter ≠ key →
      m.set_raw key j = m ∧
      m.setField emitv key attr = (m, attr) ∧
      m.setTimeField iso key attrT = (m, attrT) ∧
      m.setPrimary key attrP = (m, attrP) ∧
      m.setHasOne key rel = (m, rel) ∧
      m.setHasMany key rel = (m, rel)) ∧
    (m.set_raw m.field_filter j).emitter = m.emitter ++ [EmitOp.ejson j] ∧
    (m.setField emitv m.field_filter attr).fst.emitter = m.emitter ++
      (if !m.should_ignore_dirty_flag && !attr.dirty then []
      else [if attr.null then EmitOp.enull else emitv attr.value]) ∧
    (m.setTimeField iso m.field_filter attrT).fst.emitter = m.emitter ++
      (if !m.should_ignore_dirty_flag && !attrT.dirty then []
      else [if attrT.null then EmitOp.enull else EmitOp.estr (iso attrT.value true)]) ∧
    (m.setPrimary m.field_filter attrP).fst.emitter = m.emitter ++
      (if m.should_include_primary_key && !attrP.null then [EmitOp.eint attrP.value]
      else []) ∧
    (m.setHasOne m.field_filter rel).fst.emitter = m.emitter ++
      (if !m.should_ignore_dirty_flag && !rel.dirty then []
      else [EmitOp.ejson
        (rel.to_json (and_not_single_field (m.flags ||| INCLUDE_PRIMARY_KEY)))]) ∧
    (m.setHasMany m.field_filter rel).fst.emitter = m.emitter ++
      (if !m.should_ignore_dirty_flag && !rel.dirty then []
      else [EmitOp.ejson
        (rel.to_json (and_not_single_field (m.flags ||| INCLUDE_PRIMARY_KEY)))]) := by
  have hmatch : (m.should_output_single_field && m.field_filter != m.field_filter) = false := by
    simp
  refine ⟨?_, ?_, fun hne => ?_, ?_, ?_, ?_, ?_, ?_, ?_⟩
  · unfold Mapper.construct Mapper.emit_op
    simp [Mapper.should_output_single_field, hf]
  · simp [Mapper.dump, hosf]
  · have hcond : (m.should_output_single_field && m.field_filter != key) = true := by
      simp [hosf, bne_iff_ne, hne]
    exact ⟨by simp [Mapper.set_raw, hcond], by simp [Mapper.setField, hcond],
      by simp [Mapper.setTimeField, hcond], by simp [Mapper.setPrimary, hcond],
      by simp [Mapper.setHasOne, hcond], by simp [Mapper.setHasMany, hcond]⟩
  · simp [Mapper.set_raw, hmatch, hosf, Mapper.emit_op]
  · cases hg : (!m.should_ignore_dirty_flag && !attr.dirty) <;> cases hnull : attr.null <;>
      simp [Mapper.setField, hmatch, hosf, hg, hnull, Cell.is_dirty, Cell.is_null,
        Mapper.emit_op]
  · cases hg : (!m.should_ignore_dirty_flag && !attrT.dirty) <;> cases hnull : attrT.null <;>
      simp [Mapper.setTimeField, hmatch, hosf, hg, hnull, Cell.is_dirty, Cell.is_null,
        Mapper.emit_op]
  · cases hip : m.should_include_primary_key <;> cases hnull : attrP.null <;>
      simp [Mapper.setPrimary, hmatch, hosf, hip, hnull, Cell.is_null, Mapper.emit_op]
  · cases hg : (!m.should_ignore_dirty_flag && !rel.dirty) <;>
      simp [Mapper.setHasOne, Mapper.set_raw, hmatch, hosf, hg, Relation.is_dirty,
        Mapper.emit_op]
  · cases hg : (!m.should_ignore_dirty_flag && !rel.dirty) <;>
      simp [Mapper.setHasMany, Mapper.set_raw, hmatch, hosf, hg, Relation.is_dirty,
        Mapper.emit_op]

/-- Witness for C3: a single-field mapper filtered to the key name ignores a
set for the key age and splices the raw value for the matching key. -/
theorem C3_witness :
    (32 : Nat) &&& OUTPUT_SINGLE_FIELD = OUTPUT_SINGLE_FIELD ∧
    ((Mapper.construct 32).set_field_filter "name").should_output_single_field = true ∧
    (Mapper.construct 32).emitter = [] ∧
    (((Mapper.construct 32).set_field_filter "name").set_raw "name" "42").emitter =
      ((Mapper.construct 32).set_field_filter "name").emitter ++ [EmitOp.ejson "42"] ∧
    ((Mapper.construct 32).set_field_filter "name").setField EmitOp.eint "age"
        ({ value := 7, null := false, dirty := true } : Cell Int) =
      ((Mapper.construct 32).set_field_filter "name",
        { value := 7, null := false, dirty := true }) := by
  have h := C3_single_field_projection EmitOp.eint (fun t _ => toString t) 32 (by decide)
    ((Mapper.construct 32).set_field_filter "name") (by decide) "age" "42"
    ({ value := 7, null := false, dirty := true } : Cell Int)
    { value := 0, null := false, dirty := false }
    { value := 0, null := false, dirty := false }
    { dirty := false, to_json := fun _ => "x", hydrated := [] }
  exact ⟨by decide, by decide, h.1, h.2.2.2.1, (h.2.2.1 (by decide)).2.1⟩

/-! Bit-level facts about the relation flag mask. -/

lemma mask_testBit (i : Nat) :
    (4294967263 : Nat).testBit i = (decide (i < 32) && !decide (i = 5)) := by
  by_cases h : i < 32
  · interval_cases i <;> decide
  · have h32 : (4294967263 : Nat) < 2 ^ i := by
      calc (4294967263 : Nat) < 2 ^ 32 := by norm_num
        _ ≤ 2 ^ i := Nat.pow_le_pow_right (by norm_num) (Nat.le_of_not_lt h)
    simp [Nat.testBit_lt_two_pow h32, h]

lemma ipk_testBit (x i : Nat) :
    (x ||| INCLUDE_PRIMARY_KEY).testBit i = (if i = 1 then true else x.testBit i) := by
  have h2 : (INCLUDE_PRIMARY_KEY : Nat) = 2 ^ 1 := rfl
  rw [Nat.testBit_lor, h2, Nat.testBit_two_pow]
  by_cases h : i = 1 <;> simp [h, eq_comm]

lemma parser_empty_eq_false (m : Mapper) (key : String) (h : m.parser_empty key = false) :
    ∃ node, m.parser_find key = some node := by
  unfold Mapper.parser_empty at h
  rcases hfind : m.parser_find key with _ | node
  · rw [hfind] at h
    simp at h
  · exact ⟨node, rfl⟩

/-- C5: the relation get (has-one and has-many) hydrates the container under
the parent bitmask with the include-primary-key bit forced on, and the
relation set serializes the container under the parent bitmask with
include-primary-key forced on and output-single-field forced off; in both
directions every other bit of a 32-bit flag word is passed through, and the
include-primary-key bit of the propagated mask is always set. -/
theorem C5_relation_flag_propagation (m : Mapper) (key : String) (rel : Relation)
    (hlt : m.flags < 4294967296) :
    (∀ i, (m.flags ||| INCLUDE_PRIMARY_KEY).testBit i =
      (if i = 1 then true else m.flags.testBit i)) ∧
    (∀ i, (and_not_single_field (m.flags ||| INCLUDE_PRIMARY_KEY)).testBit i =
      (if i = 1 then true else if i = 5 then false else m.flags.testBit i)) ∧
    (m.parser_empty key = false →
      ∃ fragment,
        m.getHasOne key rel =
          .ok (rel.from_json fragment (m.flags ||| INCLUDE_PRIMARY_KEY)) ∧
        m.getHasMany key rel =
          .ok (rel.from_json fragment (m.flags ||| INCLUDE_PRIMARY_KEY))) ∧
    ((m.should_output_single_field && m.field_filter != key) = false →
      (!m.should_ignore_dirty_flag && !rel.dirty) = false →
      (m.setHasOne key rel).fst.emitter = m.emitter ++
        (if m.should_output_single_field then [] else [EmitOp.key key]) ++
        [EmitOp.ejson
          (rel.to_json (and_not_single_field (m.flags ||| INCLUDE_PRIMARY_KEY)))] ∧
      (m.setHasMany key rel).fst.emitter = m.emitter ++
        (if m.should_output_single_field then [] else [EmitOp.key key]) ++
        [EmitOp.ejson
          (rel.to_json (and_not_single_field (m.flags ||| INCLUDE_PRIMARY_KEY)))]) := by
  refine ⟨ipk_testBit m.flags, fun i => ?_, fun he => ?_, fun h1 h2 => ?_⟩
  · unfold and_not_single_field
    rw [Nat.testBit_land, ipk_testBit m.flags i, mask_testBit i]
    by_cases hb1 : i = 1
    · subst hb1
      simp
    · by_cases hb5 : i = 5
      · subst hb5
        simp
      · by_cases hb32 : i < 32
        · simp [hb1, hb5, hb32]
        · have hpow : (4294967296 : Nat) = 2 ^ 32 := by norm_num
          have hle : (2 : Nat) ^ 32 ≤ 2 ^ i :=
            Nat.pow_le_pow_right (by norm_num) (Nat.le_of_not_lt hb32)
          have hz : m.flags.testBit i = false :=
            Nat.testBit_lt_two_pow (lt_of_lt_of_le (hpow ▸ hlt) hle)
          simp [hb1, hb5, hb32, hz]
  · obtain ⟨node, hfind⟩ := parser_empty_eq_false m key he
    exact ⟨node.dump,
      by simp [Mapper.getHasOne, he, Mapper.get_raw, hfind, Except.map],
      by simp [Mapper.getHasMany, he, Mapper.get_raw, hfind, Except.map]⟩
  · have h2' : ¬(m.should_ignore_dirty_flag = false ∧ rel.is_dirty = false) := by
      rintro ⟨ha, hb⟩
      simp only [Relation.is_dirty] at hb
      rw [ha, hb] at h2
      simp at h2
    cases hosf : m.should_output_single_field
    · constructor <;>
        simp [Mapper.setHasOne, Mapper.setHasMany, Mapper.set_raw, Mapper.emit_op,
          h1, h2', hosf]
    · have hk : m.field_filter = key := by
        rw [hosf] at h1
        simpa [bne_iff_ne] using h1
      constructor <;>
        simp [Mapper.setHasOne, Mapper.setHasMany, Mapper.set_raw, Mapper.emit_op,
          h2', hosf, hk]

/-- Witness for C5: hydrating a has-one relation from a concrete document
under the zero bitmask passes bitmask 2 (include-primary-key alone). -/
theorem C5_witness :
    (Mapper.construct_load [("r", Json.Node.tree "frag")] 0).flags < 4294967296 ∧
    (Mapper.construct_load [("r", Json.Node.tree "frag")] 0).parser_empty "r" = false ∧
    ∃ fragment,
      (Mapper.construct_load [("r", Json.Node.tree "frag")] 0).getHasOne "r"
          { dirty := false, to_json := fun fl => toString fl, hydrated := [] } =
        .ok (Relation.from_json
          { dirty := false, to_json := fun fl => toString fl, hydrated := [] } fragment
          ((Mapper.construct_load [("r", Json.Node.tree "frag")] 0).flags |||
            INCLUDE_PRIMARY_KEY)) ∧
      (Mapper.construct_load [("r", Json.Node.tree "frag")] 0).getHasMany "r"
          { dirty := false, to_json := fun fl => toString fl, hydrated := [] } =
        .ok (Relation.from_json
          { dirty := false, to_json := fun fl => toString fl, hydrated := [] } fragment
          ((Mapper.construct_load [("r", Json.Node.tree "frag")] 0).flags |||
            INCLUDE_PRIMARY_KEY)) :=
  ⟨by decide, by decide,
    (C5_relation_flag_propagation (Mapper.construct_load [("r", Json.Node.tree "frag")] 0)
      "r" { dirty := false, to_json := fun fl => toString fl, hydrated := [] }
      (by decide)).2.2.1 (by decide)⟩

/-! Counting map-open and map-close events in an emitter trace. -/

def countOpens : List EmitOp → Nat
  | [] => 0
  | .mapOpen :: rest => countOpens rest + 1
  | _ :: rest => countOpens rest

def countCloses : List EmitOp → Nat
  | [] => 0
  | .mapClose :: rest => countCloses rest + 1
  | _ :: rest => countCloses rest

lemma countOpens_append (a b : List EmitOp) :
    countOpens (a ++ b) = countOpens a + countOpens b := by
  induction a with
  | nil => simp [countOpens]
  | cons x rest ih => cases x <;> simp_arith [countOpens, ih]

lemma countCloses_append (a b : List EmitOp) :
    countCloses (a ++ b) = countCloses a + countCloses b := by
  induction a with
  | nil => simp [countCloses]
  | cons x rest ih => cases x <;> simp_arith [countCloses, ih]

lemma applyAction_counts (m : Mapper) (a : Action) :
    countOpens (m.applyAction a).emitter = countOpens m.emitter ∧
    countCloses (m.applyAction a).emitter = countCloses m.emitter := by
  cases a <;>
    simp only [Mapper.applyAction, Mapper.set_raw, Mapper.setField, Mapper.setTimeField,
      Mapper.setPrimary, Mapper.setHasOne, Mapper.setHasMany, Mapper.set_flags,
      Mapper.set_field_filter, Mapper.emit_op]
  all_goals repeat' split
  all_goals simp [countOpens_append, countCloses_append, countOpens, countCloses]

lemma runActions_counts (m : Mapper) (acts : List Action) :
    countOpens (m.runActions acts).emitter = countOpens m.emitter ∧
    countCloses (m.runActions acts).emitter = countCloses m.emitter := by
  induction acts generalizing m with
  | nil => exact ⟨rfl, rfl⟩
  | cons a rest ih =>
    have h := applyAction_counts m a
    have h2 := ih (m.applyAction a)
    exact ⟨h2.1.trans h.1, h2.2.trans h.2⟩

lemma construct_flags (flags : Nat) : (Mapper.construct flags).flags = flags := by
  unfold Mapper.construct Mapper.emit_op
  cases hb : (flags &&& OUTPUT_SINGLE_FIELD == OUTPUT_SINGLE_FIELD) <;>
    simp [Mapper.should_output_single_field, hb]

lemma construct_emitter (flags : Nat) :
    (Mapper.construct flags).emitter =
      (if flags &&& OUTPUT_SINGLE_FIELD == OUTPUT_SINGLE_FIELD then []
      else [EmitOp.mapOpen]) := by
  unfold Mapper.construct Mapper.emit_op
  cases hb : (flags &&& OUTPUT_SINGLE_FIELD == OUTPUT_SINGLE_FIELD) <;>
    simp [Mapper.should_output_single_field, hb]

lemma construct_osf (flags : Nat) :
    (Mapper.construct flags).should_output_single_field =
      (flags &&& OUTPUT_SINGLE_FIELD == OUTPUT_SINGLE_FIELD) := by
  simp [Mapper.should_output_single_field, construct_flags]

/-- Counterexample to C9 as stated: constructing without single-field mode
opens the wrapper, then set_flags turns single-field mode on, and dump
suppresses the close: the open decision at construction does not match the
close decision at dump, leaving one unmatched map-open. -/
theorem C9_counterexample :
    countOpens ((Mapper.runActions (Mapper.construct 0)
        [Action.flagsSet OUTPUT_SINGLE_FIELD]).dump) = 1 ∧
    countCloses ((Mapper.runActions (Mapper.construct 0)
        [Action.flagsSet OUTPUT_SINGLE_FIELD]).dump) = 0 := by
  decide

/-- C9 amended: over any whole session of set operations (including
set_flags and set_field_filter calls), if the output-single-field bit at
dump time equals the bit at construction time, then the dumped trace holds
equally many map-open and map-close events: exactly one of each, or zero of
each in single-field mode. -/
theorem C9_wrapper_pairing (flags : Nat) (acts : List Action)
    (hsame : (Mapper.runActions (Mapper.construct flags) acts).should_output_single_field
      = (Mapper.construct flags).should_output_single_field) :
    countOpens ((Mapper.runActions (Mapper.construct flags) acts).dump) =
      countCloses ((Mapper.runActions (Mapper.construct flags) acts).dump) ∧
    countOpens ((Mapper.runActions (Mapper.construct flags) acts).dump) =
      (if (Mapper.construct flags).should_output_single_field then 0 else 1) := by
  have hc := runActions_counts (Mapper.construct flags) acts
  rw [construct_osf] at hsame
  unfold Mapper.dump Mapper.emit_op
  cases hb : (flags &&& OUTPUT_SINGLE_FIELD == OUTPUT_SINGLE_FIELD)
  · rw [hb] at hsame
    have he := construct_emitter flags
    rw [hb] at he
    simp only [hsame, if_false, Bool.false_eq_true]
    rw [countOpens_append, countCloses_append, hc.1, hc.2, he, construct_osf, hb]
    simp [countOpens, countCloses]
  · rw [hb] at hsame
    have he := construct_emitter flags
    rw [hb] at he
    simp only [hsame, if_true]
    rw [hc.1, hc.2, he, construct_osf, hb]
    simp [countOpens, countCloses]

/-- Witness for C9 amended: a session with one raw set under the zero
bitmask dumps one matched open/close pair. -/
theorem C9_witness :
    ((Mapper.runActions (Mapper.construct 0) [Action.rawSet "a" "1"]).should_output_single_field
      = (Mapper.construct 0).should_output_single_field) ∧
    countOpens ((Mapper.runActions (Mapper.construct 0) [Action.rawSet "a" "1"]).dump) =
      countCloses ((Mapper.runActions (Mapper.construct 0) [Action.rawSet "a" "1"]).dump) :=
  ⟨by decide, (C9_wrapper_pairing 0 [Action.rawSet "a" "1"] (by decide)).1⟩

end RestfulMapper
